import Mathlib

/-!
Shallow embedding of `examples/ccr_example.py`.

The script is a flat async program: it prints a banner, checks whether the
ccr config file exists under the home directory, and either prints a warning
plus one instruction line and returns, or runs three example coroutines in
sequence inside a try/except that prints a troubleshooting message.

We model a run as a trace of observable events (prints, client-session
opens/closes, queries sent to the external SDK, messages received from its
stream) together with an optional uncaught exception, represented as
`List Event × Option String`.  The external world (filesystem answers and
the behaviour of the external SDK in each session) is a parameter, since
the SDK and the filesystem are opaque dependencies of the script.
-/

namespace CcrExample

/-- Content blocks of an assistant message, as the script distinguishes them:
`TextBlock` instances versus everything else (the script only ever checks
`isinstance(block, TextBlock)`). -/
inductive ContentBlock
  | text (s : String)
  | other
  deriving DecidableEq

/-- Messages yielded by the external SDK stream, as the script distinguishes
them: `AssistantMessage` with its content blocks, `ResultMessage` with the
two fields the script reads (`session_id`, `total_cost_usd`), and everything
else.  The Python `total_cost_usd` is a float or `None`; we model it as
`Option ℚ`, keeping Python truthiness (`None` and `0.0` are falsy). -/
inductive Message
  | assistant (content : List ContentBlock)
  | result (session_id : String) (total_cost_usd : Option ℚ)
  | other
  deriving DecidableEq

/-- Observable events of a run of the script. -/
inductive Event
  | print (s : String)
  | connect
  | query (prompt : String)
  | recv (m : Message)
  | close
  deriving DecidableEq

/-- The configuration object the script builds for each example
(`ClaudeAgentOptions`); only the fields the script sets are modelled. -/
structure ClaudeAgentOptions where
  use_ccr : Bool
  allowed_tools : List String
  permission_mode : Option String
  deriving DecidableEq

/-- External behaviour of one (query, receive_response) interaction:
`client.query` may raise; otherwise the stream yields `msgs` and may then
raise `streamErr` mid-iteration. -/
structure Turn where
  queryErr : Option String
  msgs : List Message
  streamErr : Option String

/-- External behaviour of one `ClaudeSDKClient` session: entering the
async context manager may raise, and each successive turn behaves as
`turns k`. -/
structure SessionBehavior where
  connectErr : Option String
  turns : Nat → Turn

/-- The external world a run observes: the two filesystem answers the script
asks for, the repository root (which fixes `SAMPLE_CONFIG`), and the SDK
behaviour of the three sessions the script may open. -/
structure World where
  configExists : Bool
  sampleExists : Bool
  repoRoot : String
  basic : SessionBehavior
  conv : SessionBehavior
  tools : SessionBehavior

/-- `CCR_HOME_DIR = Path.home() / ".claude-code-router"`, as a function of
the home directory. -/
def CCR_HOME_DIR (home : String) : String :=
  home ++ "/.claude-code-router"

/-- `config_file = CCR_HOME_DIR / "config.json"`. -/
def config_file (home : String) : String :=
  CCR_HOME_DIR home ++ "/config.json"

/-- `SAMPLE_CONFIG = Path(__file__).parent.parent.parent / "ccr-config" / "config.json"`,
as a function of the repository root. -/
def SAMPLE_CONFIG (repoRoot : String) : String :=
  repoRoot ++ "/ccr-config/config.json"

/-- Sequential composition of two fallible traced computations: if the first
raises, the second never runs (Python statement sequencing inside `try`). -/
def andThen (a b : List Event × Option String) : List Event × Option String :=
  match a.2 with
  | some _ => a
  | none => (a.1 ++ b.1, b.2)

/-- `async with ClaudeSDKClient(...) as client:` — if entering raises, the
body never runs and no session is open; otherwise the session opens, the
body runs, and the session is closed even when the body raises (the
exception then propagates). -/
def withClient (b : SessionBehavior) (body : List Event × Option String) :
    List Event × Option String :=
  match b.connectErr with
  | some e => ([], some e)
  | none => (Event.connect :: body.1 ++ [Event.close], body.2)

/-- The events of iterating the response stream: each yielded message is
received and the render function decides what is printed for it. -/
def streamEvents (render : Message → List String) (msgs : List Message) :
    List Event :=
  msgs.flatMap fun m => Event.recv m :: (render m).map Event.print

/-- One `await client.query(prompt)` followed by
`async for message in client.receive_response():` printing `render message`
for each yielded message. -/
def runTurn (prompt : String) (render : Message → List String) (t : Turn) :
    List Event × Option String :=
  match t.queryErr with
  | some e => ([], some e)
  | none => (Event.query prompt :: streamEvents render t.msgs, t.streamErr)

/-- Abstraction of the Python float formatting `f"{x:.6f}"`; the exact
decimal rendering of the cost is not modelled, only that it is a function
of the cost value. -/
def formatCost (c : ℚ) : String :=
  toString c

/-- The per-message printing of `basic_query_example`: text blocks of an
`AssistantMessage` print `Response: ...`; a `ResultMessage` prints the
session id and, when `total_cost_usd` is truthy, the cost; anything else
prints nothing. -/
def renderBasic : Message → List String
  | Message.assistant content =>
      content.filterMap fun b =>
        match b with
        | ContentBlock.text s => some ("Response: " ++ s)
        | ContentBlock.other => none
  | Message.result sid cost =>
      ("\nSession ID: " ++ sid) ::
        (match cost with
         | some c => if c = 0 then [] else ["Cost: $" ++ formatCost c]
         | none => [])
  | Message.other => []

/-- The per-message printing of the first turn of `conversation_example`:
`print(f"Turn 1: \x7bblock.text[:100]\x7d...")`; only text blocks of
assistant messages print. -/
def renderConv1 : Message → List String
  | Message.assistant content =>
      content.filterMap fun b =>
        match b with
        | ContentBlock.text s => some ("Turn 1: " ++ s.take 100 ++ "...")
        | ContentBlock.other => none
  | _ => []

/-- The per-message printing of the second turn of `conversation_example`. -/
def renderConv2 : Message → List String
  | Message.assistant content =>
      content.filterMap fun b =>
        match b with
        | ContentBlock.text s => some ("Turn 2: " ++ s)
        | ContentBlock.other => none
  | _ => []

/-- The per-message printing of `with_tools_example`: only text blocks of
assistant messages print; in particular a `ResultMessage` prints nothing
here. -/
def renderTools : Message → List String
  | Message.assistant content =>
      content.filterMap fun b =>
        match b with
        | ContentBlock.text s => some ("Response: " ++ s)
        | ContentBlock.other => none
  | _ => []

/-- The options object built by `basic_query_example` and
`conversation_example`: `ClaudeAgentOptions(use_ccr=True)`. -/
def basicOptions : ClaudeAgentOptions :=
  { use_ccr := true, allowed_tools := [], permission_mode := none }

/-- The options object built by `with_tools_example`. -/
def toolsOptions : ClaudeAgentOptions :=
  { use_ccr := true, allowed_tools := ["Bash", "Read"],
    permission_mode := some "acceptEdits" }

/-- `basic_query_example`: banner, then one session with one turn. -/
def basic_query_example (b : SessionBehavior) : List Event × Option String :=
  andThen ([Event.print "=== Basic Query Example ===\n"], none)
    (withClient b
      (runTurn "What is 2 + 2? Answer briefly." renderBasic (b.turns 0)))

/-- `conversation_example`: banner, then one session with two turns. -/
def conversation_example (b : SessionBehavior) : List Event × Option String :=
  andThen ([Event.print "\n=== Conversation Example ===\n"], none)
    (withClient b
      (andThen (runTurn "Remember this number: 42" renderConv1 (b.turns 0))
        (runTurn "What number did I ask you to remember?" renderConv2
          (b.turns 1))))

/-- `with_tools_example`: banner, then one session with one turn. -/
def with_tools_example (b : SessionBehavior) : List Event × Option String :=
  andThen ([Event.print "\n=== Tools Example ===\n"], none)
    (withClient b
      (runTurn "What is the current directory? Use bash to find out."
        renderTools (b.turns 0)))

/-- The body of `main`'s try block: the three examples in sequence. -/
def runExamples (w : World) : List Event × Option String :=
  andThen (basic_query_example w.basic)
    (andThen (conversation_example w.conv) (with_tools_example w.tools))

/-- The lines printed by `main`'s except block. -/
def troubleshootLines (e : String) : List String :=
  ["Error: " ++ e,
   "\nMake sure:",
   "1. ccr is installed: npm install -g @musistudio/claude-code-router",
   "2. claude CLI is installed: npm install -g @anthropic-ai/claude-code",
   "3. API keys are set in environment variables"]

/-- `main`: prints the header, checks the config file, and either prints the
warning plus one instruction line and returns, or runs the examples under
the try/except. -/
def main (home : String) (w : World) : List Event × Option String :=
  let header := Event.print ("Using ccr config from: " ++ CCR_HOME_DIR home ++ "\n")
  if w.configExists then
    let body := runExamples w
    match body.2 with
    | none => (header :: body.1, none)
    | some e =>
        (header :: body.1 ++ (troubleshootLines e).map Event.print, none)
  else
    (header ::
      Event.print ("Warning: Config file not found at " ++ config_file home) ::
      [Event.print
        (if w.sampleExists then
          "Copy the sample: cp " ++ SAMPLE_CONFIG w.repoRoot ++ " " ++
            config_file home
        else "Please create the config file first.")], none)

/-- `Path.home()` consults the HOME environment variable (with an
unmodelled pwd-database fallback when it is absent). -/
def homeFromEnv (env : String → Option String) : String :=
  (env "HOME").getD "/root"

/-- The whole script as invoked by `asyncio.run(main())`, as a function of
the process environment and the external world.  The script itself reads no
environment variable; only `Path.home()` does. -/
def runScript (env : String → Option String) (w : World) :
    List Event × Option String :=
  main (homeFromEnv env) w

/-- The strings printed along an event trace, in order. -/
def printedOf (l : List Event) : List String :=
  l.filterMap fun ev =>
    match ev with
    | Event.print s => some s
    | _ => none

/-- The printed output of a run. -/
def outputOf (r : List Event × Option String) : List String :=
  printedOf r.1

/-- How many events of a trace satisfy `p`. -/
def countEvent (p : Event → Bool) (l : List Event) : Nat :=
  (l.filter p).length

/-- Recognises session-open events. -/
def isConnect : Event → Bool
  | Event.connect => true
  | _ => false

/-- Recognises session-close events. -/
def isClose : Event → Bool
  | Event.close => true
  | _ => false

/-- Recognises query events. -/
def isQuery : Event → Bool
  | Event.query _ => true
  | _ => false

/-! ### Helper lemmas -/

theorem printedOf_append (a b : List Event) :
    printedOf (a ++ b) = printedOf a ++ printedOf b := by
  simp [printedOf]

theorem printedOf_cons_recv (m : Message) (l : List Event) :
    printedOf (Event.recv m :: l) = printedOf l := by
  simp [printedOf]

theorem printedOf_map_print (l : List String) :
    printedOf (l.map Event.print) = l := by
  induction l with
  | nil => rfl
  | cons s rest ih => simp [printedOf, List.filterMap_cons] at ih ⊢; exact ih

theorem printedOf_streamEvents (render : Message → List String)
    (msgs : List Message) :
    printedOf (streamEvents render msgs) = msgs.flatMap render := by
  induction msgs with
  | nil => rfl
  | cons m rest ih =>
      simp only [streamEvents, List.flatMap_cons] at ih ⊢
      rw [printedOf_append, ih, printedOf_cons_recv, printedOf_map_print]

theorem countEvent_append (p : Event → Bool) (a b : List Event) :
    countEvent p (a ++ b) = countEvent p a + countEvent p b := by
  simp [countEvent]

theorem countEvent_streamEvents_connect (render : Message → List String)
    (msgs : List Message) :
    countEvent isConnect (streamEvents render msgs) = 0 := by
  induction msgs with
  | nil => rfl
  | cons m rest ih =>
      simp only [streamEvents, List.flatMap_cons] at ih ⊢
      rw [countEvent_append, ih]
      simp [countEvent, isConnect, List.filter_map, Function.comp]

theorem countEvent_streamEvents_close (render : Message → List String)
    (msgs : List Message) :
    countEvent isClose (streamEvents render msgs) = 0 := by
  induction msgs with
  | nil => rfl
  | cons m rest ih =>
      simp only [streamEvents, List.flatMap_cons] at ih ⊢
      rw [countEvent_append, ih]
      simp [countEvent, isClose, List.filter_map, Function.comp]

theorem countEvent_runTurn_connect (prompt : String)
    (render : Message → List String) (t : Turn) :
    countEvent isConnect (runTurn prompt render t).1 = 0 := by
  cases h : t.queryErr with
  | some e => simp [runTurn, h, countEvent]
  | none =>
      simp only [runTurn, h]
      rw [show (Event.query prompt :: streamEvents render t.msgs)
            = [Event.query prompt] ++ streamEvents render t.msgs from rfl,
        countEvent_append, countEvent_streamEvents_connect]
      simp [countEvent, isConnect]

theorem countEvent_runTurn_close (prompt : String)
    (render : Message → List String) (t : Turn) :
    countEvent isClose (runTurn prompt render t).1 = 0 := by
  cases h : t.queryErr with
  | some e => simp [runTurn, h, countEvent]
  | none =>
      simp only [runTurn, h]
      rw [show (Event.query prompt :: streamEvents render t.msgs)
            = [Event.query prompt] ++ streamEvents render t.msgs from rfl,
        countEvent_append, countEvent_streamEvents_close]
      simp [countEvent, isClose]

theorem countEvent_andThen (p : Event → Bool) (a b : List Event × Option String)
    (ha : countEvent p a.1 = 0) (hb : countEvent p b.1 = 0) :
    countEvent p (andThen a b).1 = 0 := by
  cases h : a.2 with
  | some e => simp [andThen, h, ha]
  | none => simp [andThen, h, countEvent_append, ha, hb]

theorem withClient_balanced (b : SessionBehavior)
    (body : List Event × Option String)
    (h1 : countEvent isConnect body.1 = 0)
    (h2 : countEvent isClose body.1 = 0) :
    countEvent isConnect (withClient b body).1
      = countEvent isClose (withClient b body).1 := by
  cases h : b.connectErr with
  | some e => simp [withClient, h, countEvent]
  | none =>
      simp only [withClient, h]
      rw [show (Event.connect :: body.1 ++ [Event.close])
            = [Event.connect] ++ (body.1 ++ [Event.close]) from rfl]
      rw [countEvent_append, countEvent_append, countEvent_append,
        countEvent_append, h1, h2]
      simp [countEvent, isConnect, isClose]

theorem andThen_balanced (a b : List Event × Option String)
    (ha : countEvent isConnect a.1 = countEvent isClose a.1)
    (hb : countEvent isConnect b.1 = countEvent isClose b.1) :
    countEvent isConnect (andThen a b).1 = countEvent isClose (andThen a b).1 := by
  cases h : a.2 with
  | some e => simp [andThen, h, ha]
  | none => simp [andThen, h, countEvent_append, ha, hb]

theorem basic_balanced (b : SessionBehavior) :
    countEvent isConnect (basic_query_example b).1
      = countEvent isClose (basic_query_example b).1 := by
  refine andThen_balanced _ _ (by simp [countEvent, isConnect, isClose]) ?_
  exact withClient_balanced _ _ (countEvent_runTurn_connect _ _ _)
    (countEvent_runTurn_close _ _ _)

theorem conv_balanced (b : SessionBehavior) :
    countEvent isConnect (conversation_example b).1
      = countEvent isClose (conversation_example b).1 := by
  refine andThen_balanced _ _ (by simp [countEvent, isConnect, isClose]) ?_
  exact withClient_balanced _ _
    (countEvent_andThen _ _ _ (countEvent_runTurn_connect _ _ _)
      (countEvent_runTurn_connect _ _ _))
    (countEvent_andThen _ _ _ (countEvent_runTurn_close _ _ _)
      (countEvent_runTurn_close _ _ _))

theorem tools_balanced (b : SessionBehavior) :
    countEvent isConnect (with_tools_example b).1
      = countEvent isClose (with_tools_example b).1 := by
  refine andThen_balanced _ _ (by simp [countEvent, isConnect, isClose]) ?_
  exact withClient_balanced _ _ (countEvent_runTurn_connect _ _ _)
    (countEvent_runTurn_close _ _ _)

theorem runExamples_balanced (w : World) :
    countEvent isConnect (runExamples w).1
      = countEvent isClose (runExamples w).1 :=
  andThen_balanced _ _ (basic_balanced _)
    (andThen_balanced _ _ (conv_balanced _) (tools_balanced _))

theorem printedOf_nil : printedOf [] = [] := rfl

theorem printedOf_cons_print (s : String) (l : List Event) :
    printedOf (Event.print s :: l) = s :: printedOf l := by
  simp [printedOf]

theorem printedOf_cons_connect (l : List Event) :
    printedOf (Event.connect :: l) = printedOf l := by
  simp [printedOf]

theorem printedOf_cons_query (p : String) (l : List Event) :
    printedOf (Event.query p :: l) = printedOf l := by
  simp [printedOf]

theorem printedOf_cons_close (l : List Event) :
    printedOf (Event.close :: l) = printedOf l := by
  simp [printedOf]

/-- The printed output of banner plus a one-turn session, when connecting
and querying succeed: the banner, then one line per rendered string of each
streamed message, in stream order. -/
theorem outputOf_session_oneturn (banner prompt : String)
    (render : Message → List String) (b : SessionBehavior)
    (hconn : b.connectErr = none) (hq : (b.turns 0).queryErr = none) :
    outputOf (andThen ([Event.print banner], none)
      (withClient b (runTurn prompt render (b.turns 0)))) =
      banner :: (b.turns 0).msgs.flatMap render := by
  have h1 : (runTurn prompt render (b.turns 0)).1
      = Event.query prompt :: streamEvents render (b.turns 0).msgs := by
    simp [runTurn, hq]
  have h2 : (withClient b (runTurn prompt render (b.turns 0))).1
      = Event.connect :: ((runTurn prompt render (b.turns 0)).1 ++ [Event.close]) := by
    simp [withClient, hconn]
  simp only [outputOf, andThen]
  rw [h2, h1]
  simp only [printedOf_append, printedOf_cons_print, printedOf_cons_connect,
    printedOf_cons_query, printedOf_cons_close, printedOf_nil, List.cons_append,
    printedOf_streamEvents, List.append_nil, List.nil_append]

/-! ### Concrete worlds used by witnesses and counterexamples -/

/-- A session in which every external call succeeds and every stream is
empty. -/
def idleSession : SessionBehavior :=
  { connectErr := none,
    turns := fun _ => { queryErr := none, msgs := [], streamErr := none } }

/-- A session whose context-manager entry raises. -/
def failingSession : SessionBehavior :=
  { connectErr := some "ccr not running",
    turns := fun _ => { queryErr := none, msgs := [], streamErr := none } }

/-- A session whose single stream yields exactly one `ResultMessage`. -/
def resultOnlySession : SessionBehavior :=
  { connectErr := none,
    turns := fun _ =>
      { queryErr := none,
        msgs := [Message.result "session-123" (some 1)],
        streamErr := none } }

/-- A world in which the config file is missing. -/
def missingWorld : World :=
  { configExists := false, sampleExists := false, repoRoot := "/repo",
    basic := idleSession, conv := idleSession, tools := idleSession }

/-- A world in which the config file exists and every external call
succeeds. -/
def okWorld : World :=
  { configExists := true, sampleExists := true, repoRoot := "/repo",
    basic := idleSession, conv := idleSession, tools := idleSession }

/-- A world in which the config file exists and the first example's session
fails to open. -/
def errorWorld : World :=
  { configExists := true, sampleExists := true, repoRoot := "/repo",
    basic := failingSession, conv := idleSession, tools := idleSession }

/-! ### Claims -/

/-- C1: when the config file at the fixed home-directory path does not
exist, `main` prints the warning and an instruction line and returns
normally: no exception escapes, no client session is opened, and no query
is sent to the SDK, so no example runs. -/
theorem missing_config_warns_and_returns (home : String) (w : World)
    (h : w.configExists = false) :
    (main home w).2 = none ∧
    (main home w).1 =
      [Event.print ("Using ccr config from: " ++ CCR_HOME_DIR home ++ "\n"),
       Event.print ("Warning: Config file not found at " ++ config_file home),
       Event.print
         (if w.sampleExists then
            "Copy the sample: cp " ++ SAMPLE_CONFIG w.repoRoot ++ " " ++
              config_file home
          else "Please create the config file first.")] ∧
    countEvent isConnect (main home w).1 = 0 ∧
    countEvent isQuery (main home w).1 = 0 := by
  refine ⟨?_, ?_, ?_, ?_⟩ <;>
    simp [main, h, countEvent, isConnect, isQuery]

/-- Witness for C1 at a concrete home directory and world. -/
theorem missing_config_warns_and_returns_witness :
    (main "/home/user" missingWorld).2 = none ∧
    countEvent isConnect (main "/home/user" missingWorld).1 = 0 :=
  ⟨(missing_config_warns_and_returns "/home/user" missingWorld rfl).1,
   (missing_config_warns_and_returns "/home/user" missingWorld rfl).2.2.1⟩

/-- C8: in the missing-config branch the single instruction line printed
after the warning depends on whether the sample config exists: a copy
command naming the sample and target paths when it does, and the message
asking to create the config file when it does not. -/
theorem missing_config_instruction_line (home : String) (w : World)
    (h : w.configExists = false) :
    outputOf (main home w) =
      ["Using ccr config from: " ++ CCR_HOME_DIR home ++ "\n",
       "Warning: Config file not found at " ++ config_file home,
       if w.sampleExists then
         "Copy the sample: cp " ++ SAMPLE_CONFIG w.repoRoot ++ " " ++
           config_file home
       else "Please create the config file first."] := by
  simp [outputOf, printedOf, main, h]

/-- Witness for C8 at a concrete home directory and world. -/
theorem missing_config_instruction_line_witness :
    outputOf (main "/home/user" missingWorld) =
      ["Using ccr config from: " ++ CCR_HOME_DIR "/home/user" ++ "\n",
       "Warning: Config file not found at " ++ config_file "/home/user",
       "Please create the config file first."] := by
  have h := missing_config_instruction_line "/home/user" missingWorld rfl
  simpa using h

/-- C2: whenever the example sequence raises, `main` catches the exception,
prints the generic troubleshooting lines after the output produced so far,
and returns normally. -/
theorem exceptions_caught_at_top_level (home : String) (w : World) (e : String)
    (hc : w.configExists = true) (he : (runExamples w).2 = some e) :
    (main home w).2 = none ∧
    (main home w).1 =
      Event.print ("Using ccr config from: " ++ CCR_HOME_DIR home ++ "\n") ::
        (runExamples w).1 ++ (troubleshootLines e).map Event.print := by
  constructor <;> simp [main, hc, he]

/-- Witness for C2: a world whose first session fails to open. -/
theorem exceptions_caught_at_top_level_witness :
    (main "/home/user" errorWorld).2 = none :=
  (exceptions_caught_at_top_level "/home/user" errorWorld "ccr not running"
    rfl rfl).1

/-- C3: no retry or recovery: when an example raises, its partial trace
appears exactly once, the troubleshooting lines follow immediately, and
every example scheduled after it contributes nothing to the run. -/
theorem no_retry_failed_example_skips_rest (home e : String) (w : World)
    (hc : w.configExists = true) :
    ((basic_query_example w.basic).2 = some e →
      (main home w).1 =
        Event.print ("Using ccr config from: " ++ CCR_HOME_DIR home ++ "\n") ::
          (basic_query_example w.basic).1 ++
            (troubleshootLines e).map Event.print) ∧
    ((basic_query_example w.basic).2 = none →
      (conversation_example w.conv).2 = some e →
      (main home w).1 =
        Event.print ("Using ccr config from: " ++ CCR_HOME_DIR home ++ "\n") ::
          (basic_query_example w.basic).1 ++ (conversation_example w.conv).1 ++
            (troubleshootLines e).map Event.print) ∧
    ((basic_query_example w.basic).2 = none →
      (conversation_example w.conv).2 = none →
      (with_tools_example w.tools).2 = some e →
      (main home w).1 =
        Event.print ("Using ccr config from: " ++ CCR_HOME_DIR home ++ "\n") ::
          (basic_query_example w.basic).1 ++ (conversation_example w.conv).1 ++
            (with_tools_example w.tools).1 ++
              (troubleshootLines e).map Event.print) := by
  refine ⟨fun h1 => ?_, fun h1 h2 => ?_, fun h1 h2 h3 => ?_⟩ <;>
    simp [main, hc, runExamples, andThen, h1]
  · simp [h2]
  · simp [h2, h3]

/-- Witness for C3: in the failing world the basic example's trace is
followed directly by the troubleshooting lines. -/
theorem no_retry_failed_example_skips_rest_witness :
    (main "/home/user" errorWorld).1 =
      Event.print ("Using ccr config from: " ++ CCR_HOME_DIR "/home/user" ++ "\n") ::
        (basic_query_example errorWorld.basic).1 ++
          (troubleshootLines "ccr not running").map Event.print :=
  (no_retry_failed_example_skips_rest "/home/user" "ccr not running"
    errorWorld rfl).1 rfl

/-- C4 counterexample: on a stream consisting of one `ResultMessage`, the
tools example prints nothing beyond its banner — neither session id nor
cost — while the basic example prints the session id and cost from the same
message; so it is not true that each example prints the session id and cost
from `ResultMessage` fields. -/
theorem tools_example_ignores_result_message :
    outputOf (with_tools_example resultOnlySession) =
      ["\n=== Tools Example ===\n"] ∧
    outputOf (basic_query_example resultOnlySession) =
      ["=== Basic Query Example ===\n", "\nSession ID: session-123",
       "Cost: $1"] :=
  ⟨rfl, rfl⟩

/-- C4 (amended): for every stream, what each example prints is determined
solely by message type tags and content-block tags: text blocks of
assistant messages print; a `ResultMessage` prints session id and cost in
the basic example and nothing in the conversation and tools examples;
messages of any other type print nothing. -/
theorem printing_tag_directed (b : SessionBehavior) (sid : String)
    (cost : Option ℚ) (content : List ContentBlock)
    (hconn : b.connectErr = none) (hq : (b.turns 0).queryErr = none) :
    outputOf (basic_query_example b) =
      "=== Basic Query Example ===\n" :: (b.turns 0).msgs.flatMap renderBasic ∧
    outputOf (with_tools_example b) =
      "\n=== Tools Example ===\n" :: (b.turns 0).msgs.flatMap renderTools ∧
    renderBasic (Message.assistant content) =
      content.filterMap (fun blk =>
        match blk with
        | ContentBlock.text s => some ("Response: " ++ s)
        | ContentBlock.other => none) ∧
    renderTools (Message.assistant content) =
      content.filterMap (fun blk =>
        match blk with
        | ContentBlock.text s => some ("Response: " ++ s)
        | ContentBlock.other => none) ∧
    renderBasic (Message.result sid cost) =
      ("\nSession ID: " ++ sid) ::
        (match cost with
         | some c => if c = 0 then [] else ["Cost: $" ++ formatCost c]
         | none => []) ∧
    renderTools (Message.result sid cost) = [] ∧
    renderConv1 (Message.result sid cost) = [] ∧
    renderConv2 (Message.result sid cost) = [] ∧
    renderBasic Message.other = [] ∧
    renderConv1 Message.other = [] ∧
    renderConv2 Message.other = [] ∧
    renderTools Message.other = [] := by
  refine ⟨?_, ?_, rfl, rfl, rfl, rfl, rfl, rfl, rfl, rfl, rfl, rfl⟩
  · exact outputOf_session_oneturn "=== Basic Query Example ===\n"
      "What is 2 + 2? Answer briefly." renderBasic b hconn hq
  · exact outputOf_session_oneturn "\n=== Tools Example ===\n"
      "What is the current directory? Use bash to find out." renderTools b
      hconn hq

/-- Witness for the amended C4 on a concrete session behaviour. -/
theorem printing_tag_directed_witness :
    outputOf (basic_query_example resultOnlySession) =
      "=== Basic Query Example ===\n" ::
        (resultOnlySession.turns 0).msgs.flatMap renderBasic ∧
    renderTools (Message.result "session-123" (some 1)) = [] :=
  ⟨(printing_tag_directed resultOnlySession "session-123" (some 1) []
      rfl rfl).1,
   (printing_tag_directed resultOnlySession "session-123" (some 1) []
      rfl rfl).2.2.2.2.2.1⟩

/-- The process environments used by the C5 witness. -/
def envWithKeys : String → Option String :=
  fun k =>
    if k = "OPENROUTER_API_KEY" then some "sk-or-v1-abc"
    else if k = "DEEPSEEK_API_KEY" then some "sk-ds-def"
    else none

/-- An environment with no provider API keys set. -/
def envNoKeys : String → Option String := fun _ => none

/-- C5: the script reads no API-key environment variable: any two
environments that agree on HOME — in particular any two differing only in
provider API-key variables — produce identical runs: same control flow,
same prints, and same arguments passed to the external SDK. -/
theorem api_key_env_vars_not_read (env1 env2 : String → Option String)
    (w : World) (hhome : env1 "HOME" = env2 "HOME") :
    runScript env1 w = runScript env2 w := by
  simp [runScript, homeFromEnv, hhome]

/-- Witness for C5: an environment with both API keys set versus one with
neither. -/
theorem api_key_env_vars_not_read_witness :
    runScript envWithKeys okWorld = runScript envNoKeys okWorld :=
  api_key_env_vars_not_read envWithKeys envNoKeys okWorld rfl

/-- C6: each example builds its options object with `use_ccr = true` and
follows the fixed step order: banner print, then session open, then a
query, then the iteration over that query's streamed messages with their
prints (and, in the conversation example, the second query followed by its
own stream), then session close; no step occurs before its predecessor. -/
theorem every_example_step_order (b1 b2 b3 : SessionBehavior)
    (h1c : b1.connectErr = none) (h1q : (b1.turns 0).queryErr = none)
    (h2c : b2.connectErr = none) (h2q0 : (b2.turns 0).queryErr = none)
    (h2s0 : (b2.turns 0).streamErr = none)
    (h2q1 : (b2.turns 1).queryErr = none)
    (h3c : b3.connectErr = none) (h3q : (b3.turns 0).queryErr = none) :
    basicOptions.use_ccr = true ∧
    toolsOptions.use_ccr = true ∧
    (basic_query_example b1).1 =
      Event.print "=== Basic Query Example ===\n" ::
        Event.connect ::
          Event.query "What is 2 + 2? Answer briefly." ::
            (streamEvents renderBasic (b1.turns 0).msgs ++ [Event.close]) ∧
    (conversation_example b2).1 =
      Event.print "\n=== Conversation Example ===\n" ::
        Event.connect ::
          Event.query "Remember this number: 42" ::
            (streamEvents renderConv1 (b2.turns 0).msgs ++
              (Event.query "What number did I ask you to remember?" ::
                (streamEvents renderConv2 (b2.turns 1).msgs ++
                  [Event.close]))) ∧
    (with_tools_example b3).1 =
      Event.print "\n=== Tools Example ===\n" ::
        Event.connect ::
          Event.query "What is the current directory? Use bash to find out." ::
            (streamEvents renderTools (b3.turns 0).msgs ++ [Event.close]) := by
  refine ⟨rfl, rfl, ?_, ?_, ?_⟩
  · simp [basic_query_example, andThen, withClient, runTurn, h1c, h1q]
  · simp [conversation_example, andThen, withClient, runTurn, h2c, h2q0,
      h2s0, h2q1]
  · simp [with_tools_example, andThen, withClient, runTurn, h3c, h3q]

/-- Witness for C6 on concrete session behaviours. -/
theorem every_example_step_order_witness :
    basicOptions.use_ccr = true ∧
    toolsOptions.use_ccr = true ∧
    (basic_query_example idleSession).1 =
      Event.print "=== Basic Query Example ===\n" ::
        Event.connect ::
          Event.query "What is 2 + 2? Answer briefly." ::
            (streamEvents renderBasic (idleSession.turns 0).msgs ++
              [Event.close]) ∧
    (conversation_example idleSession).1 =
      Event.print "\n=== Conversation Example ===\n" ::
        Event.connect ::
          Event.query "Remember this number: 42" ::
            (streamEvents renderConv1 (idleSession.turns 0).msgs ++
              (Event.query "What number did I ask you to remember?" ::
                (streamEvents renderConv2 (idleSession.turns 1).msgs ++
                  [Event.close]))) ∧
    (with_tools_example idleSession).1 =
      Event.print "\n=== Tools Example ===\n" ::
        Event.connect ::
          Event.query "What is the current directory? Use bash to find out." ::
            (streamEvents renderTools (idleSession.turns 0).msgs ++
              [Event.close]) :=
  every_example_step_order idleSession idleSession idleSession
    rfl rfl rfl rfl rfl rfl rfl rfl

/-- C7: the run is a single sequential composition: when the config exists
and no example raises, the full trace is the header print followed by the
events of the three examples in program order, each example's events
complete before the next example's begin, and no other interleaving
occurs. -/
theorem examples_run_sequentially (home : String) (w : World)
    (hc : w.configExists = true) (hok : (runExamples w).2 = none) :
    (basic_query_example w.basic).2 = none ∧
    (conversation_example w.conv).2 = none ∧
    (with_tools_example w.tools).2 = none ∧
    (main home w).1 =
      Event.print ("Using ccr config from: " ++ CCR_HOME_DIR home ++ "\n") ::
        ((basic_query_example w.basic).1 ++ (conversation_example w.conv).1 ++
          (with_tools_example w.tools).1) := by
  cases h1 : (basic_query_example w.basic).2 with
  | some e => exfalso; simp [runExamples, andThen, h1] at hok
  | none =>
      cases h2 : (conversation_example w.conv).2 with
      | some e => exfalso; simp [runExamples, andThen, h1, h2] at hok
      | none =>
          cases h3 : (with_tools_example w.tools).2 with
          | some e => exfalso; simp [runExamples, andThen, h1, h2, h3] at hok
          | none =>
              refine ⟨rfl, rfl, rfl, ?_⟩
              simp [main, hc, runExamples, andThen, h1, h2, h3]

/-- Witness for C7: a world where the config exists and every call
succeeds. -/
theorem examples_run_sequentially_witness :
    (main "/home/user" okWorld).1 =
      Event.print ("Using ccr config from: " ++ CCR_HOME_DIR "/home/user" ++ "\n") ::
        ((basic_query_example okWorld.basic).1 ++
          (conversation_example okWorld.conv).1 ++
            (with_tools_example okWorld.tools).1) :=
  (examples_run_sequentially "/home/user" okWorld rfl rfl).2.2.2

/-- C9: session opens and closes balance on every path: in each example's
trace and in `main`'s full trace — whatever the filesystem answers and
whatever the SDK does, exceptions included — the number of session-open
events equals the number of session-close events, so no session remains
open when the except block runs or when the script exits. -/
theorem sessions_never_left_open (home : String) (w : World) :
    countEvent isConnect (basic_query_example w.basic).1
      = countEvent isClose (basic_query_example w.basic).1 ∧
    countEvent isConnect (conversation_example w.conv).1
      = countEvent isClose (conversation_example w.conv).1 ∧
    countEvent isConnect (with_tools_example w.tools).1
      = countEvent isClose (with_tools_example w.tools).1 ∧
    countEvent isConnect (main home w).1
      = countEvent isClose (main home w).1 := by
  refine ⟨basic_balanced _, conv_balanced _, tools_balanced _, ?_⟩
  have hb := runExamples_balanced w
  cases hc : w.configExists with
  | false => simp [main, hc, countEvent, isConnect, isClose]
  | true =>
      cases he : (runExamples w).2 with
      | none =>
          simp only [main, hc, he, if_true]
          simpa [countEvent, isConnect, isClose, List.filter_cons] using hb
      | some e =>
          simp only [main, hc, he, if_true]
          have hts : ∀ p : Event → Bool, (∀ s, p (Event.print s) = false) →
              countEvent p ((troubleshootLines e).map Event.print) = 0 := by
            intro p hp
            simp [countEvent, troubleshootLines, List.filter_cons, hp]
          rw [show (Event.print ("Using ccr config from: " ++ CCR_HOME_DIR home ++ "\n") ::
              (runExamples w).1 ++ (troubleshootLines e).map Event.print)
            = [Event.print ("Using ccr config from: " ++ CCR_HOME_DIR home ++ "\n")] ++
                ((runExamples w).1 ++ (troubleshootLines e).map Event.print) from rfl]
          rw [countEvent_append, countEvent_append, countEvent_append,
            countEvent_append, hb,
            hts isConnect (fun s => rfl), hts isClose (fun s => rfl)]
          simp [countEvent, isConnect, isClose]

/-- C10: the run is deterministic in the external world: equal filesystem
answers, equal home directory, and equal SDK behaviours give
character-for-character identical printed output. -/
theorem printed_output_deterministic (home1 home2 : String) (w1 w2 : World)
    (hh : home1 = home2)
    (h1 : w1.configExists = w2.configExists)
    (h2 : w1.sampleExists = w2.sampleExists)
    (h3 : w1.repoRoot = w2.repoRoot)
    (h4 : w1.basic = w2.basic)
    (h5 : w1.conv = w2.conv)
    (h6 : w1.tools = w2.tools) :
    outputOf (main home1 w1) = outputOf (main home2 w2) := by
  cases w1
  cases w2
  simp only at h1 h2 h3 h4 h5 h6
  subst hh h1 h2 h3 h4 h5 h6
  rfl

/-- Witness for C10 at a concrete pair of equal worlds. -/
theorem printed_output_deterministic_witness :
    outputOf (main "/home/user" okWorld) = outputOf (main "/home/user" okWorld) :=
  printed_output_deterministic "/home/user" "/home/user" okWorld okWorld
    rfl rfl rfl rfl rfl rfl rfl

end CcrExample
